import Mathlib

/-!
Verification of the data-reduction core of `script.py`: the loader
(`load_simulation_data`), the particle validity predicate
(`validate_particle_data`) and the reducer (`analyze_flow_field`).

The script manipulates values parsed from JSON by Python's `json.load`, so
the embedding works over a type `JVal` of parsed JSON values.  Numbers are
modelled by rationals (the claims are about the structure of the reduction,
not about rounding).  Python booleans are kept as a separate constructor
because `isinstance(x, (int, float))` accepts booleans (Python's `bool` is a
subclass of `int`) while other checks distinguish them.
-/

/-- A value parsed from JSON, as handled by the script. -/
inductive JVal where
  | num (q : ℚ)
  | bool (b : Bool)
  | str (s : String)
  | arr (elems : List JVal)
  | obj (fields : List (String × JVal))
  | null

/-- Lookup of a key in a parsed JSON object.  Keys of an object produced by
`json.load` are distinct, so first-match lookup models Python dict lookup. -/
def lookupField : List (String × JVal) → String → Option JVal
  | [], _ => none
  | (k, v) :: rest, key => if k = key then some v else lookupField rest key

/-- Python `d.get(key, default)` on an object's field list. -/
def lookupD (fs : List (String × JVal)) (key : String) (d : JVal) : JVal :=
  (lookupField fs key).getD d

/-- The script's numeric check `isinstance(x, (int, float))` (script.py
lines 27-31).  Python's `bool` is a subclass of `int`, so booleans pass. -/
def numericJ : JVal → Bool
  | .num _ => true
  | .bool _ => true
  | _ => false

/-- The per-axis check `all(isinstance(d.get(k), (int, float)) for k in
['X','Y','Z'])` applied to a `Position`/`Velocity` value.  On a non-object
value, Python's `.get` raises and the surrounding `except` returns `False`,
so the check is `false` there. -/
def checkXYZ : JVal → Bool
  | .obj fs =>
      numericJ ((lookupField fs "X").getD .null) &&
      numericJ ((lookupField fs "Y").getD .null) &&
      numericJ ((lookupField fs "Z").getD .null)
  | _ => false

/-- `validate_particle_data` (script.py lines 21-35).  A non-object particle
makes `particle.get` raise, and the handler returns `False`. -/
def validate_particle_data (particle : JVal) : Bool :=
  match particle with
  | .obj fs =>
      checkXYZ (lookupD fs "Position" (.obj [])) &&
      checkXYZ (lookupD fs "Velocity" (.obj [])) &&
      numericJ ((lookupField fs "Temperature").getD .null)
  | _ => false

/-- Numeric reading of a JSON value, as numpy coerces values when building
`positions_array`/`velocities_array`: booleans become 0 or 1.  Only applied
to values that passed `numericJ`, so the remaining cases are unreachable
there and default to 0. -/
def JVal.toRat : JVal → ℚ
  | .num q => q
  | .bool b => if b then 1 else 0
  | _ => 0

/-- Python truthiness, for `if not particles` (script.py line 59). -/
def truthy : JVal → Bool
  | .num q => !(decide (q = 0))
  | .bool b => b
  | .str s => !s.isEmpty
  | .arr xs => !xs.isEmpty
  | .obj fs => !fs.isEmpty
  | .null => false

/-- Python iteration over a value, for the comprehension
`[p for p in particles ...]` (script.py line 64): a list yields its elements,
a string its characters, a dict its keys; numbers and booleans are not
iterable (`TypeError`), and `None` is only reached when truthy. -/
def pyIter : JVal → Option (List JVal)
  | .arr xs => some xs
  | .str s => some (s.data.map fun c => .str (String.mk [c]))
  | .obj fs => some (fs.map fun kv => .str kv.1)
  | _ => none

/-- A 3-component vector of rationals. -/
structure Vec3 where
  x : ℚ
  y : ℚ
  z : ℚ

/-- `array.mean(axis=0)` on a nonempty list of rows (script.py lines 76-77):
the per-component sum divided by the number of rows. -/
def vecMean (vs : List Vec3) : Vec3 :=
  ⟨(vs.map Vec3.x).sum / vs.length,
   (vs.map Vec3.y).sum / vs.length,
   (vs.map Vec3.z).sum / vs.length⟩

/-- Field access on an object value; `none` on any other value. -/
def getField : JVal → String → Option JVal
  | .obj fs, k => lookupField fs k
  | _, _ => none

/-- Two-level field access `p[a][b]` through objects. -/
def fieldPath (p : JVal) (a b : String) : Option JVal :=
  (getField p a).bind fun o => getField o b

/-- The coordinate read `p['Position']['X']` etc. (script.py lines 71-74),
as the number numpy stores.  Only used on particles that passed validation,
where the path is present and numeric. -/
def coordQ (p : JVal) (fld k : String) : ℚ :=
  ((fieldPath p fld k).getD .null).toRat

/-- The position row `[p['Position']['X'], p['Position']['Y'],
p['Position']['Z']]` of a particle. -/
def posVec (p : JVal) : Vec3 :=
  ⟨coordQ p "Position" "X", coordQ p "Position" "Y", coordQ p "Position" "Z"⟩

/-- The velocity row of a particle. -/
def velVec (p : JVal) : Vec3 :=
  ⟨coordQ p "Velocity" "X", coordQ p "Velocity" "Y", coordQ p "Velocity" "Z"⟩

/-- One accumulated triple: the raw timestamp value together with the mean
position and mean velocity appended for one snapshot (script.py
lines 79-81). -/
structure Entry where
  time : JVal
  pos : Vec3
  vel : Vec3

/-- The body of the reducer's loop for one snapshot (script.py lines 51-81):
`.ok none` when the snapshot is skipped (non-dict snapshot, falsy
`Particles`, or no valid particle), `.ok (some entry)` when a triple is
appended, and `.error ()` when iterating a truthy non-iterable `Particles`
value raises `TypeError` (caught by the outer handler). -/
def processSnapshot (snapshot : JVal) : Except Unit (Option Entry) :=
  match snapshot with
  | .obj fs =>
      let timestamp := lookupD fs "Timestamp" (.num 0)
      let particles := lookupD fs "Particles" (.arr [])
      if truthy particles = false then .ok none
      else
        match pyIter particles with
        | none => .error ()
        | some ps =>
            let valid := ps.filter validate_particle_data
            if valid.isEmpty then .ok none
            else .ok (some ⟨timestamp, vecMean (valid.map posVec), vecMean (valid.map velVec)⟩)
  | _ => .ok none

/-- The reducer's loop over all snapshots, accumulating the appended
triples in input order and propagating a raised exception. -/
def collectEntries : List JVal → Except Unit (List Entry)
  | [] => .ok []
  | s :: rest =>
      match processSnapshot s with
      | .error e => .error e
      | .ok none => collectEntries rest
      | .ok (some entry) => (collectEntries rest).map (entry :: ·)

/-- The reducer's successful result: the three aligned sequences returned as
`{'times': ..., 'velocities': ..., 'positions': ...}`. -/
structure ReducedSeries where
  times : List ℚ
  positions : List Vec3
  velocities : List Vec3

/-- `analyze_flow_field` (script.py lines 37-114).  `none` models every
return of `None`: fewer than 2 input snapshots, an exception caught by the
`except` handler, or fewer than 2 accumulated time points.  A collected
timestamp that is not a Python number makes the script's diagnostic
formatting of `times[0]`/`times[-1]` or the numpy conversion of `times`
raise inside the `try` block (always for strings and lists, and for other
non-numbers whenever they sit at a printed position); every run that
collected a non-numeric timestamp is modelled as taking that exception
path. -/
def analyze_flow_field (data : List JVal) : Option ReducedSeries :=
  if data.length < 2 then none
  else
    match collectEntries data with
    | .error _ => none
    | .ok entries =>
        if entries.length < 2 then none
        else if entries.all (fun e => numericJ e.time) then
          some ⟨entries.map (fun e => e.time.toRat),
                entries.map Entry.pos,
                entries.map Entry.vel⟩
        else none

/-- `load_simulation_data` (script.py lines 9-19).  File reading and JSON
parsing are I/O; their outcome is the argument: `none` when the file cannot
be read or parsed, `some v` for a document parsed to `v`.  The function
returns `None` unless the document is a non-empty JSON array, which it
returns unchanged. -/
def load_simulation_data : Option JVal → Option (List JVal)
  | none => none
  | some (.arr xs) => if xs.length = 0 then none else some xs
  | some _ => none

/-- Restatement of the spec's validity condition, for comparison with
`validate_particle_data`: all six position/velocity fields and the
temperature are present and numeric (numeric in the sense of the script's
`isinstance(x, (int, float))` check, which booleans pass). -/
def valid_spec (p : JVal) : Bool :=
  (fieldPath p "Position" "X").any numericJ &&
  (fieldPath p "Position" "Y").any numericJ &&
  (fieldPath p "Position" "Z").any numericJ &&
  (fieldPath p "Velocity" "X").any numericJ &&
  (fieldPath p "Velocity" "Y").any numericJ &&
  (fieldPath p "Velocity" "Z").any numericJ &&
  (getField p "Temperature").any numericJ

/-- The triple produced by one snapshot, `none` when the snapshot is
skipped or raises. -/
def snapEntry (s : JVal) : Option Entry :=
  match processSnapshot s with
  | .ok (some e) => some e
  | _ => none

/-- Whether a snapshot yields a valid mean, i.e. contributes a triple. -/
def yieldsValidMean (s : JVal) : Bool :=
  (snapEntry s).isSome

/-- A valid particle used to instantiate the mean theorem, with position
(1, 2, 3) and velocity (4, 5, 6). -/
def wMeanP1 : JVal :=
  .obj [("Position", .obj [("X", .num 1), ("Y", .num 2), ("Z", .num 3)]),
        ("Velocity", .obj [("X", .num 4), ("Y", .num 5), ("Z", .num 6)]),
        ("Temperature", .num 300)]

/-- A valid particle used to instantiate the mean theorem, with position
(3, 0, 1) and velocity (0, 1, 2). -/
def wMeanP2 : JVal :=
  .obj [("Position", .obj [("X", .num 3), ("Y", .num 0), ("Z", .num 1)]),
        ("Velocity", .obj [("X", .num 0), ("Y", .num 1), ("Z", .num 2)]),
        ("Temperature", .num 7)]

/-- A particle whose seven checked fields are all numbers or booleans, with
`Temperature` the JSON value `true` and a boolean `Position.X`. -/
def wBoolParticle : JVal :=
  .obj [("Position", .obj [("X", .bool true), ("Y", .num 0), ("Z", .num 2)]),
        ("Velocity", .obj [("X", .num 1), ("Y", .bool false), ("Z", .num 0)]),
        ("Temperature", .bool true)]

/-- A one-particle snapshot with timestamp 10: position (2, 4, 6), velocity
(1, 1, 1), temperature 300. -/
def wSnapA : JVal :=
  .obj [("Timestamp", .num 10), ("Particles", .arr [
    .obj [("Position", .obj [("X", .num 2), ("Y", .num 4), ("Z", .num 6)]),
          ("Velocity", .obj [("X", .num 1), ("Y", .num 1), ("Z", .num 1)]),
          ("Temperature", .num 300)]])]

/-- A two-particle snapshot with timestamp 20: positions (1, 1, 1) and
(3, 3, 3), velocities (0, 2, 4) and (4, 2, 0). -/
def wSnapB : JVal :=
  .obj [("Timestamp", .num 20), ("Particles", .arr [
    .obj [("Position", .obj [("X", .num 1), ("Y", .num 1), ("Z", .num 1)]),
          ("Velocity", .obj [("X", .num 0), ("Y", .num 2), ("Z", .num 4)]),
          ("Temperature", .num 5)],
    .obj [("Position", .obj [("X", .num 3), ("Y", .num 3), ("Z", .num 3)]),
          ("Velocity", .obj [("X", .num 4), ("Y", .num 2), ("Z", .num 0)]),
          ("Temperature", .num 7)]])]

/-- Snapshot 0 of the spec's two-snapshot example: timestamp 0, one particle
at position (0, 0, 0) with velocity (1, 0, 0) and temperature 300. -/
def wScen0 : JVal :=
  .obj [("Timestamp", .num 0), ("Particles", .arr [
    .obj [("Position", .obj [("X", .num 0), ("Y", .num 0), ("Z", .num 0)]),
          ("Velocity", .obj [("X", .num 1), ("Y", .num 0), ("Z", .num 0)]),
          ("Temperature", .num 300)]])]

/-- Snapshot 1 of the spec's two-snapshot example: timestamp 1, one particle
at position (1, 0, 0) with velocity (1, 0, 0) and temperature 300. -/
def wScen1 : JVal :=
  .obj [("Timestamp", .num 1), ("Particles", .arr [
    .obj [("Position", .obj [("X", .num 1), ("Y", .num 0), ("Z", .num 0)]),
          ("Velocity", .obj [("X", .num 1), ("Y", .num 0), ("Z", .num 0)]),
          ("Temperature", .num 300)]])]

/-- A one-particle snapshot with the later timestamp 9, listed first in the
out-of-order example. -/
def wLate : JVal :=
  .obj [("Timestamp", .num 9), ("Particles", .arr [
    .obj [("Position", .obj [("X", .num 1), ("Y", .num 0), ("Z", .num 0)]),
          ("Velocity", .obj [("X", .num 2), ("Y", .num 0), ("Z", .num 0)]),
          ("Temperature", .num 1)]])]

/-- A one-particle snapshot with the earlier timestamp 1, listed second in
the out-of-order example. -/
def wEarly : JVal :=
  .obj [("Timestamp", .num 1), ("Particles", .arr [
    .obj [("Position", .obj [("X", .num 0), ("Y", .num 1), ("Z", .num 0)]),
          ("Velocity", .obj [("X", .num 0), ("Y", .num 3), ("Z", .num 0)]),
          ("Temperature", .num 2)]])]

theorem numericJ_getD_null (o : Option JVal) :
    numericJ (o.getD .null) = o.any numericJ := by
  cases o <;> rfl

theorem checkXYZ_getD (o : Option JVal) :
    checkXYZ (o.getD (.obj [])) =
      ((o.bind fun v => getField v "X").any numericJ &&
       (o.bind fun v => getField v "Y").any numericJ &&
       (o.bind fun v => getField v "Z").any numericJ) := by
  cases o with
  | none => rfl
  | some v => cases v <;> simp [checkXYZ, getField, numericJ_getD_null]

/-- The validity predicate coincides, on every parsed value, with the spec's
condition that all seven fields are present and numeric. -/
theorem validate_eq_valid_spec (p : JVal) :
    validate_particle_data p = valid_spec p := by
  cases p <;>
    simp [validate_particle_data, valid_spec, lookupD, fieldPath, getField,
          checkXYZ_getD, numericJ_getD_null, Bool.and_assoc]

/-- A snapshot whose particle list is empty or has no valid particle is not
appended: its loop iteration ends in `continue`. -/
theorem processSnapshot_skip (fs : List (String × JVal)) (ps : List JVal)
    (hp : lookupD fs "Particles" (.arr []) = .arr ps)
    (h : ps = [] ∨ ∀ p ∈ ps, validate_particle_data p = false) :
    processSnapshot (.obj fs) = .ok none := by
  rcases h with rfl | hall
  · simp [processSnapshot, hp, truthy]
  · cases ps with
    | nil => simp [processSnapshot, hp, truthy]
    | cons a l =>
        have hfilter : (a :: l).filter validate_particle_data = [] :=
          List.filter_eq_nil_iff.mpr (by simpa using hall)
        simp [processSnapshot, hp, truthy, pyIter, hfilter]

/-- C2: For every particle record, the validity predicate returns true if
and only if all six position/velocity fields (Position.X/Y/Z,
Velocity.X/Y/Z) and the Temperature field are present and numeric (in the
sense of the script's numeric check); in particular, for every particle
missing any of these seven fields it returns false. -/
theorem validity_iff_seven_fields_numeric (p : JVal) :
    validate_particle_data p = true ↔ valid_spec p = true := by
  rw [validate_eq_valid_spec]

/-- C10: Boolean field values count as numeric in particle validation: a
particle whose seven checked fields are each a number or a boolean (e.g.
Temperature is the JSON value true) passes `validate_particle_data`, so it
is retained by the filter, and a boolean coordinate is read as 0 or 1 when
it enters the snapshot means. -/
theorem bool_fields_count_as_numeric (p : JVal) (h : valid_spec p = true) :
    validate_particle_data p = true ∧
    JVal.toRat (.bool true) = 1 ∧ JVal.toRat (.bool false) = 0 := by
  refine ⟨?_, rfl, rfl⟩
  rw [validate_eq_valid_spec]
  exact h

theorem bool_fields_count_as_numeric_witness :
    validate_particle_data wBoolParticle = true ∧
    JVal.toRat (.bool true) = 1 ∧ JVal.toRat (.bool false) = 0 :=
  bool_fields_count_as_numeric wBoolParticle (by decide)

/-- C6: The loader returns the parsed sequence exactly when the document
parses to a non-empty array, and then returns it unchanged with no
particle-level validation; in every other case (unparsable document,
non-array top level, empty array) it returns `None`. -/
theorem loader_success_iff_nonempty_array (doc : Option JVal) (xs : List JVal) :
    load_simulation_data doc = some xs ↔ doc = some (.arr xs) ∧ xs ≠ [] := by
  cases doc with
  | none => simp [load_simulation_data]
  | some v =>
      cases v with
      | arr elems =>
          simp only [load_simulation_data]
          rcases Nat.eq_zero_or_pos elems.length with h | h
          · rw [if_pos h]
            rw [List.length_eq_zero] at h
            subst h
            simp
          · rw [if_neg (Nat.pos_iff_ne_zero.mp h)]
            constructor
            · rintro he
              injection he with he
              subst he
              exact ⟨rfl, fun hnil => by simp [hnil] at h⟩
            · rintro ⟨he, -⟩
              injection he with he
              injection he with he
              rw [he]
      | num q => simp [load_simulation_data]
      | bool b => simp [load_simulation_data]
      | str s => simp [load_simulation_data]
      | obj fs => simp [load_simulation_data]
      | null => simp [load_simulation_data]

/-- C5: A snapshot whose particles sequence is empty or contains no particle
passing validation contributes no entry at all to the accumulated series:
removing it from the input leaves the accumulated entries unchanged. -/
theorem skipped_snapshot_contributes_nothing (pre post : List JVal)
    (fs : List (String × JVal)) (ps : List JVal)
    (hp : lookupD fs "Particles" (.arr []) = .arr ps)
    (h : ps = [] ∨ ∀ p ∈ ps, validate_particle_data p = false) :
    collectEntries (pre ++ .obj fs :: post) = collectEntries (pre ++ post) := by
  induction pre with
  | nil => simp [collectEntries, processSnapshot_skip fs ps hp h]
  | cons a l ih =>
      cases hpa : processSnapshot a with
      | error e => simp [collectEntries, hpa]
      | ok o => cases o <;> simp [collectEntries, hpa, ih]

theorem skipped_snapshot_contributes_nothing_witness :
    collectEntries ([] ++ .obj [("Particles", .arr [])] :: []) =
      collectEntries ([] ++ []) :=
  skipped_snapshot_contributes_nothing [] [] [("Particles", .arr [])] []
    rfl (Or.inl rfl)

/-- C1: For a snapshot in which every listed particle is valid, the entry
appended for that snapshot carries the snapshot's timestamp together with
the coordinate-wise arithmetic mean (sum divided by count, per X/Y/Z
component) of the listed particles' positions and velocities. -/
theorem mean_over_all_valid_particles (fs : List (String × JVal)) (ps : List JVal)
    (hp : lookupD fs "Particles" (.arr []) = .arr ps) (hne : ps ≠ [])
    (hv : ∀ p ∈ ps, validate_particle_data p = true) :
    processSnapshot (.obj fs) = .ok (some
      ⟨lookupD fs "Timestamp" (.num 0),
       ⟨(ps.map fun p => (posVec p).x).sum / ps.length,
        (ps.map fun p => (posVec p).y).sum / ps.length,
        (ps.map fun p => (posVec p).z).sum / ps.length⟩,
       ⟨(ps.map fun p => (velVec p).x).sum / ps.length,
        (ps.map fun p => (velVec p).y).sum / ps.length,
        (ps.map fun p => (velVec p).z).sum / ps.length⟩⟩) := by
  have hfilter : ps.filter validate_particle_data = ps :=
    List.filter_eq_self.mpr hv
  cases ps with
  | nil => exact absurd rfl hne
  | cons a l =>
      simp [processSnapshot, hp, truthy, pyIter, hfilter, vecMean,
            List.map_map, Function.comp_def]

theorem mean_over_all_valid_particles_witness :
    processSnapshot (.obj [("Timestamp", .num 5), ("Particles", .arr [wMeanP1, wMeanP2])]) =
      .ok (some
        ⟨lookupD [("Timestamp", .num 5), ("Particles", .arr [wMeanP1, wMeanP2])] "Timestamp" (.num 0),
         ⟨(([wMeanP1, wMeanP2] : List JVal).map fun p => (posVec p).x).sum / ([wMeanP1, wMeanP2] : List JVal).length,
          (([wMeanP1, wMeanP2] : List JVal).map fun p => (posVec p).y).sum / ([wMeanP1, wMeanP2] : List JVal).length,
          (([wMeanP1, wMeanP2] : List JVal).map fun p => (posVec p).z).sum / ([wMeanP1, wMeanP2] : List JVal).length⟩,
         ⟨(([wMeanP1, wMeanP2] : List JVal).map fun p => (velVec p).x).sum / ([wMeanP1, wMeanP2] : List JVal).length,
          (([wMeanP1, wMeanP2] : List JVal).map fun p => (velVec p).y).sum / ([wMeanP1, wMeanP2] : List JVal).length,
          (([wMeanP1, wMeanP2] : List JVal).map fun p => (velVec p).z).sum / ([wMeanP1, wMeanP2] : List JVal).length⟩⟩) :=
  mean_over_all_valid_particles
    [("Timestamp", .num 5), ("Particles", .arr [wMeanP1, wMeanP2])]
    [wMeanP1, wMeanP2] rfl (by simp) (by decide)

/-- The number of accumulated entries equals the number of snapshots that
yield a valid mean. -/
theorem collectEntries_length (data : List JVal) (entries : List Entry)
    (h : collectEntries data = .ok entries) :
    entries.length = data.countP yieldsValidMean := by
  induction data generalizing entries with
  | nil =>
      simp only [collectEntries] at h
      injection h with h
      subst h
      rfl
  | cons s rest ih =>
      cases hps : processSnapshot s with
      | error e => simp [collectEntries, hps] at h
      | ok o =>
          cases o with
          | none =>
              simp only [collectEntries, hps] at h
              simp [List.countP_cons, yieldsValidMean, snapEntry, hps, ih entries h]
          | some e =>
              simp only [collectEntries, hps] at h
              cases hr : collectEntries rest with
              | error e2 => simp [hr, Except.map] at h
              | ok t =>
                  simp only [hr, Except.map] at h
                  injection h with h
                  subst h
                  simp [List.countP_cons, yieldsValidMean, snapEntry, hps, ih t hr]

/-- Decomposition of a successful reduction: the accumulated entries exist,
number at least 2, and give the three output sequences by projection. -/
theorem analyze_success_entries (data : List JVal) (rs : ReducedSeries)
    (h : analyze_flow_field data = some rs) :
    ∃ entries, collectEntries data = .ok entries ∧ 2 ≤ entries.length ∧
      rs = ⟨entries.map (fun e => e.time.toRat),
            entries.map Entry.pos, entries.map Entry.vel⟩ := by
  unfold analyze_flow_field at h
  by_cases hl : data.length < 2
  · rw [if_pos hl] at h
    cases h
  · rw [if_neg hl] at h
    cases hce : collectEntries data with
    | error e =>
        simp only [hce] at h
        exact Option.noConfusion h
    | ok entries =>
        simp only [hce] at h
        by_cases hlen : entries.length < 2
        · rw [if_pos hlen] at h
          cases h
        · rw [if_neg hlen] at h
          by_cases hnum : entries.all (fun e => numericJ e.time) = true
          · rw [if_pos hnum] at h
            injection h with h
            exact ⟨entries, rfl, Nat.le_of_not_lt hlen, h.symm⟩
          · rw [if_neg hnum] at h
            cases h

/-- Under no raised exception, the accumulated entries are exactly the
per-snapshot results kept in input order. -/
theorem collectEntries_eq_filterMap (data : List JVal) (entries : List Entry)
    (h : collectEntries data = .ok entries) :
    entries = data.filterMap snapEntry := by
  induction data generalizing entries with
  | nil =>
      simp only [collectEntries] at h
      injection h with h
      subst h
      rfl
  | cons s rest ih =>
      cases hps : processSnapshot s with
      | error e => simp [collectEntries, hps] at h
      | ok o =>
          cases o with
          | none =>
              simp only [collectEntries, hps] at h
              simp [List.filterMap_cons, snapEntry, hps, ih entries h]
          | some e =>
              simp only [collectEntries, hps] at h
              cases hr : collectEntries rest with
              | error e2 => simp [hr, Except.map] at h
              | ok t =>
                  simp only [hr, Except.map] at h
                  injection h with h
                  subst h
                  simp [List.filterMap_cons, snapEntry, hps, ih t hr]

/-- C3: The reduction returns `None` whenever the input has fewer than 2
snapshots, and also whenever fewer than 2 snapshots yield a valid mean; in
both cases no ReducedSeries is produced. -/
theorem insufficient_data_returns_none (data : List JVal)
    (h : data.length < 2 ∨ data.countP yieldsValidMean < 2) :
    analyze_flow_field data = none := by
  unfold analyze_flow_field
  by_cases hl : data.length < 2
  · rw [if_pos hl]
  · rw [if_neg hl]
    have hc : data.countP yieldsValidMean < 2 := h.resolve_left hl
    cases hce : collectEntries data with
    | error e => simp only [hce]
    | ok entries =>
        simp only [hce]
        rw [if_pos]
        rw [collectEntries_length data entries hce]
        exact hc

theorem insufficient_data_returns_none_witness :
    analyze_flow_field [.obj [], .obj []] = none :=
  insufficient_data_returns_none [.obj [], .obj []] (Or.inr (by decide))

/-- C4: Whenever the reduction succeeds, the three output sequences have
equal length, that common length is at least 2, and the three sequences are
the projections of one list of per-snapshot entries, so `times[i]`,
`positions[i]` and `velocities[i]` all come from the same snapshot. -/
theorem successful_series_is_aligned (data : List JVal) (rs : ReducedSeries)
    (h : analyze_flow_field data = some rs) :
    rs.times.length = rs.positions.length ∧
    rs.positions.length = rs.velocities.length ∧
    2 ≤ rs.times.length ∧
    rs.times = (data.filterMap snapEntry).map (fun e => e.time.toRat) ∧
    rs.positions = (data.filterMap snapEntry).map Entry.pos ∧
    rs.velocities = (data.filterMap snapEntry).map Entry.vel := by
  obtain ⟨entries, hce, hlen, rfl⟩ := analyze_success_entries data rs h
  have he := collectEntries_eq_filterMap data entries hce
  subst he
  exact ⟨by simp, by simp, by simpa using hlen, rfl, rfl, rfl⟩

/-- C7: Snapshots are processed and emitted in exactly the input order: each
output sequence is the input-ordered filterMap of the per-snapshot results,
with no sorting by timestamp, so out-of-order input timestamps produce
out-of-order output times. -/
theorem output_in_input_order (data : List JVal) (rs : ReducedSeries)
    (h : analyze_flow_field data = some rs) :
    rs.times = data.filterMap (fun s => (snapEntry s).map fun e => e.time.toRat) ∧
    rs.positions = data.filterMap (fun s => (snapEntry s).map Entry.pos) ∧
    rs.velocities = data.filterMap (fun s => (snapEntry s).map Entry.vel) := by
  obtain ⟨entries, hce, -, rfl⟩ := analyze_success_entries data rs h
  have he := collectEntries_eq_filterMap data entries hce
  subst he
  exact ⟨List.map_filterMap _ _ _, List.map_filterMap _ _ _, List.map_filterMap _ _ _⟩

/-- C8: On the spec's two-snapshot example the reduction succeeds with
times = [0, 1], positions = [(0,0,0), (1,0,0)] and
velocities = [(1,0,0), (1,0,0)]. -/
theorem two_snapshot_example_reduces :
    analyze_flow_field [wScen0, wScen1] =
      some ⟨[0, 1], [⟨0, 0, 0⟩, ⟨1, 0, 0⟩], [⟨1, 0, 0⟩, ⟨1, 0, 0⟩]⟩ := by
  simp [analyze_flow_field, collectEntries, processSnapshot, lookupD,
    lookupField, truthy, pyIter, validate_particle_data, checkXYZ, numericJ,
    vecMean, posVec, velVec, coordQ, fieldPath, getField, JVal.toRat,
    Except.map, wScen0, wScen1]

/-- C9: The reduction is deterministic: two runs on the same parsed sequence
give identical results. -/
theorem reduction_deterministic (data : List JVal)
    (r₁ r₂ : Option ReducedSeries)
    (h₁ : analyze_flow_field data = r₁) (h₂ : analyze_flow_field data = r₂) :
    r₁ = r₂ := by
  rw [← h₁, ← h₂]

theorem reduction_deterministic_witness :
    analyze_flow_field [wSnapA, wSnapB] =
      some ⟨[10, 20], [⟨2, 4, 6⟩, ⟨2, 2, 2⟩], [⟨1, 1, 1⟩, ⟨2, 2, 2⟩]⟩ :=
  reduction_deterministic [wSnapA, wSnapB] _ _ rfl (by
    simp [analyze_flow_field, collectEntries, processSnapshot, lookupD,
      lookupField, truthy, pyIter, validate_particle_data, checkXYZ, numericJ,
      vecMean, posVec, velVec, coordQ, fieldPath, getField, JVal.toRat,
      Except.map, wSnapA, wSnapB]
    norm_num)

theorem successful_series_is_aligned_witness :
    ((⟨[9, 1], [⟨1, 0, 0⟩, ⟨0, 1, 0⟩], [⟨2, 0, 0⟩, ⟨0, 3, 0⟩]⟩ : ReducedSeries).times.length =
      (⟨[9, 1], [⟨1, 0, 0⟩, ⟨0, 1, 0⟩], [⟨2, 0, 0⟩, ⟨0, 3, 0⟩]⟩ : ReducedSeries).positions.length) ∧
    ((⟨[9, 1], [⟨1, 0, 0⟩, ⟨0, 1, 0⟩], [⟨2, 0, 0⟩, ⟨0, 3, 0⟩]⟩ : ReducedSeries).positions.length =
      (⟨[9, 1], [⟨1, 0, 0⟩, ⟨0, 1, 0⟩], [⟨2, 0, 0⟩, ⟨0, 3, 0⟩]⟩ : ReducedSeries).velocities.length) ∧
    2 ≤ (⟨[9, 1], [⟨1, 0, 0⟩, ⟨0, 1, 0⟩], [⟨2, 0, 0⟩, ⟨0, 3, 0⟩]⟩ : ReducedSeries).times.length ∧
    (⟨[9, 1], [⟨1, 0, 0⟩, ⟨0, 1, 0⟩], [⟨2, 0, 0⟩, ⟨0, 3, 0⟩]⟩ : ReducedSeries).times =
      (([wLate, wEarly] : List JVal).filterMap snapEntry).map (fun e => e.time.toRat) ∧
    (⟨[9, 1], [⟨1, 0, 0⟩, ⟨0, 1, 0⟩], [⟨2, 0, 0⟩, ⟨0, 3, 0⟩]⟩ : ReducedSeries).positions =
      (([wLate, wEarly] : List JVal).filterMap snapEntry).map Entry.pos ∧
    (⟨[9, 1], [⟨1, 0, 0⟩, ⟨0, 1, 0⟩], [⟨2, 0, 0⟩, ⟨0, 3, 0⟩]⟩ : ReducedSeries).velocities =
      (([wLate, wEarly] : List JVal).filterMap snapEntry).map Entry.vel :=
  successful_series_is_aligned [wLate, wEarly] _ (by
    simp [analyze_flow_field, collectEntries, processSnapshot, lookupD,
      lookupField, truthy, pyIter, validate_particle_data, checkXYZ, numericJ,
      vecMean, posVec, velVec, coordQ, fieldPath, getField, JVal.toRat,
      Except.map, wLate, wEarly])

theorem output_in_input_order_witness :
    ((⟨[9, 1], [⟨1, 0, 0⟩, ⟨0, 1, 0⟩], [⟨2, 0, 0⟩, ⟨0, 3, 0⟩]⟩ : ReducedSeries).times =
      ([wLate, wEarly] : List JVal).filterMap (fun s => (snapEntry s).map fun e => e.time.toRat)) ∧
    ((⟨[9, 1], [⟨1, 0, 0⟩, ⟨0, 1, 0⟩], [⟨2, 0, 0⟩, ⟨0, 3, 0⟩]⟩ : ReducedSeries).positions =
      ([wLate, wEarly] : List JVal).filterMap (fun s => (snapEntry s).map Entry.pos)) ∧
    ((⟨[9, 1], [⟨1, 0, 0⟩, ⟨0, 1, 0⟩], [⟨2, 0, 0⟩, ⟨0, 3, 0⟩]⟩ : ReducedSeries).velocities =
      ([wLate, wEarly] : List JVal).filterMap (fun s => (snapEntry s).map Entry.vel)) :=
  output_in_input_order [wLate, wEarly]
    ⟨[9, 1], [⟨1, 0, 0⟩, ⟨0, 1, 0⟩], [⟨2, 0, 0⟩, ⟨0, 3, 0⟩]⟩ (by
    simp [analyze_flow_field, collectEntries, processSnapshot, lookupD,
      lookupField, truthy, pyIter, validate_particle_data, checkXYZ, numericJ,
      vecMean, posVec, velVec, coordQ, fieldPath, getField, JVal.toRat,
      Except.map, wLate, wEarly])
